import Mathlib

/-! The file cmd/operator/rollout.go.

A shallow embedding of the orchestration code of the release manager:
`runRollouts`, `handleRollout`, `rolloutErrsToString` and
`chooseMetricsProvider`.

The collaborators that live outside the file (target selection, the Cloud Run
API client, the two metrics providers, the rollout engine) are fields of an
environment `Env`; every call to one of them and every log line is recorded in
a trace of `Event`s, so that "is called" and "is never called" are statements
about the trace.
-/

namespace Operator

/-! ## Errors -/

/-- A non-nil Go `error` value. `base` is an error produced by a collaborator,
`wrap` is the value built by `errors.Wrap(cause, msg)`. -/
inductive GoError where
  | base (msg : String)
  | wrap (cause : GoError) (msg : String)
  deriving DecidableEq, Repr

/-- The `Error()` method: `errors.Wrap` puts its message in front of the cause's,
separated by a colon and a blank. -/
def GoError.Error : GoError → String
  | .base msg => msg
  | .wrap cause msg => msg ++ ": " ++ cause.Error

/-- A Go value of interface type `error`: `none` is `nil`. -/
abbrev error := Option GoError

/-- The function `errors.Wrap(err, message)` of github.com/pkg/errors: `nil` stays `nil`. -/
def Wrap (err : error) (message : String) : error :=
  match err with
  | none => none
  | some e => some (GoError.wrap e message)

/-- The `%v` verb of `fmt` applied to an `error`. -/
def fmtV : error → String
  | none => "<nil>"
  | some e => e.Error

/-- The `%d` verb of `fmt` applied to a slice index. -/
def fmtD (i : Nat) : String := Nat.repr i

/-! ## Data model -/

/-- The `Metadata` of the embedded `*run.Service`; only `Name` is read here. -/
structure ObjectMeta where
  Name : String
  deriving DecidableEq, Repr

/-- The `rollout.ServiceRecord` fields read by this file. -/
structure ServiceRecord where
  Metadata : ObjectMeta
  Project : String
  Region : String
  deriving DecidableEq, Repr

/-- The `config.Target` carried by a strategy, as a handle. -/
structure Target where
  handle : Nat
  deriving DecidableEq, Repr

/-- The `config.Strategy`; this file reads only `Target` and passes the whole
value on to the rollout engine. -/
structure Strategy where
  Target : Target
  Steps : List Nat
  deriving DecidableEq, Repr

/-- A `*run.API` client value, as a handle. -/
structure Client where
  handle : Nat
  deriving DecidableEq, Repr

/-- A `metrics.Provider` value, as a handle. -/
structure Provider where
  handle : Nat
  deriving DecidableEq, Repr

/-- The fields attached to the per-service log entry `lg`. -/
structure LogFields where
  project : String
  service : String
  region : String
  deriving DecidableEq, Repr

/-- Observable actions of the code: calls to collaborators and log lines. -/
inductive Event where
  | callGetTargetedServices (target : Target)
  | warnNoService
  | callHandleRollout (svc : ServiceRecord)
  | debugRolloutError (name : String) (err : GoError)
  | callNewAPIClient (region : String)
  | debugUsingSheets (lg : LogFields)
  | callSheetsNewProvider (sheetsID sheetName region svcName : String)
  | debugUsingStackdriver (lg : LogFields)
  | callStackdriverNewProvider (project region svcName : String)
  | callRollout (provider : Provider) (svc : ServiceRecord) (strategy : Strategy)
      (client : Client)
  | errorRolloutFailed (lg : LogFields) (err : GoError)
  | infoUpdated (lg : LogFields)
  | debugUnchanged (lg : LogFields)
  deriving DecidableEq, Repr

/-- The process-wide flag and the collaborators declared outside the file.
Each collaborator returns the Go pair `(value, err)`. -/
structure Env where
  flGoogleSheetsID : String
  getTargetedServices : Target → List ServiceRecord × error
  NewAPIClient : String → Client × error
  sheetsNewProvider : String → String → String → String → Provider × error
  stackdriverNewProvider : String → String → String → Provider × error
  Rollout : Provider → ServiceRecord → Strategy → Client → Bool × error

/-! ## chooseMetricsProvider -/

/-- Embedding of `chooseMetricsProvider`: the result pair and the trace. -/
def chooseMetricsProvider (env : Env) (logger : LogFields) (project region svcName : String) :
    (Provider × error) × List Event :=
  if env.flGoogleSheetsID ≠ "" then
    (env.sheetsNewProvider env.flGoogleSheetsID "" region svcName,
      [Event.debugUsingSheets logger,
       Event.callSheetsNewProvider env.flGoogleSheetsID "" region svcName])
  else
    (env.stackdriverNewProvider project region svcName,
      [Event.debugUsingStackdriver logger,
       Event.callStackdriverNewProvider project region svcName])

/-! ## handleRollout -/

/-- The entry `lg` built at the top of `handleRollout`: the logger with the
fields project, service and region. -/
def logFields (service : ServiceRecord) : LogFields :=
  { project := service.Project, service := service.Metadata.Name, region := service.Region }

/-- Embedding of `handleRollout`: the returned error and the trace. -/
def handleRollout (env : Env) (service : ServiceRecord) (strategy : Strategy) :
    error × List Event :=
  let lg := logFields service
  let t1 := [Event.callNewAPIClient service.Region]
  match env.NewAPIClient service.Region with
  | (_, some err) => (Wrap (some err) "failed to initialize Cloud Run API client", t1)
  | (client, none) =>
    match chooseMetricsProvider env lg service.Project service.Region service.Metadata.Name with
    | ((_, some err), t2) => (Wrap (some err) "failed to initialize metrics provider", t1 ++ t2)
    | ((metricsProvider, none), t2) =>
      let t3 := t1 ++ t2 ++ [Event.callRollout metricsProvider service strategy client]
      match env.Rollout metricsProvider service strategy client with
      | (_, some err) =>
        (Wrap (some err) "rollout failed", t3 ++ [Event.errorRolloutFailed lg err])
      | (changed, none) =>
        if changed then (none, t3 ++ [Event.infoUpdated lg])
        else (none, t3 ++ [Event.debugUnchanged lg])

/-! ## rolloutErrsToString -/

/-- The loop of `rolloutErrsToString`, started at index `i` with the string
built so far. -/
def rolloutErrsToString.loop (i : Nat) (errsStr : String) : List error → String
  | [] => errsStr
  | err :: rest =>
    let errsStr := if i > 0 then errsStr ++ "\n" else errsStr
    let errsStr := errsStr ++ ("[error#" ++ fmtD i ++ "] " ++ fmtV err)
    rolloutErrsToString.loop (i + 1) errsStr rest

/-- Embedding of `rolloutErrsToString`. -/
def rolloutErrsToString (errs : List error) : String :=
  rolloutErrsToString.loop 0 "" errs

/-- The entry the rendering is expected to show for the error at index `i`. -/
def errorEntry (i : Nat) (err : error) : String :=
  "[error#" ++ Nat.repr i ++ "] " ++ fmtV err

/-! ## runRollouts

`runRollouts` launches one goroutine per targeted service and joins them with a
`sync.WaitGroup`; the goroutines append to `errs` under a `sync.Mutex`. The
embedding is a step function on an explicit state, driven by a schedule that
says which goroutine moves next. A goroutine that cannot move (it waits for the
mutex, or for the wait group) leaves the state as it is. The statement
`errs = append(errs, err)` is two steps, the read of `errs` and the assignment:
without the mutex a second goroutine could read between the two and one of the
two errors would be lost.

The collaborators are functions of their arguments, so the call of
`handleRollout` is one step of its goroutine: splitting it further would only
reorder the trace. -/

/-- Where a launched goroutine stands in the body of the `go func`. -/
inductive Pc where
  /-- launched by `go`, body not entered yet (`defer wg.Done()` is pending from here on) -/
  | start
  /-- after `handleRollout` returned `err != nil` and `lg.Debugf` is done; before `mu.Lock()` -/
  | wantLock (err : GoError)
  /-- after `mu.Lock()` returned; before `errs = append(errs, err)` -/
  | locked (err : GoError)
  /-- after `append(errs, err)` has read the slice `errs`, which was `old`; before the
  assignment of the result to `errs` -/
  | appending (err : GoError) (old : List error)
  /-- the append is done; before `mu.Unlock()` -/
  | appended
  /-- the body is done; the deferred `wg.Done()` has not run yet -/
  | exiting
  /-- after `wg.Done()` has run -/
  | done
  deriving DecidableEq, Repr

/-- One launched goroutine: its argument `svc` and its position. -/
structure Goroutine where
  svc : ServiceRecord
  pc : Pc
  deriving DecidableEq, Repr

/-- Where the calling goroutine stands in `runRollouts`. -/
inductive MainPc where
  /-- in `for _, svc := range svcs`, with the services still to launch; with none left
  the next statement is `wg.Wait()` -/
  | looping (rest : List ServiceRecord)
  /-- after `wg.Wait()` returned; before `return errs` -/
  | joined
  /-- after `runRollouts` returned this slice -/
  | returned (errs : List error)
  deriving DecidableEq, Repr

/-- The state of one call of `runRollouts`. -/
structure State where
  main : MainPc
  units : List Goroutine
  errs : List error
  mu : Bool
  wg : Nat
  trace : List Event
  deriving DecidableEq, Repr

/-- A thread of the call: the caller or the goroutine launched `i`-th. -/
inductive Tid where
  | main
  | unit (i : Nat)
  deriving DecidableEq, Repr

/-- One step of the calling goroutine. An iteration of the loop, `wg.Add(1)` and
the `go` statement, is one step: the counter is read by `wg.Wait()` only, which
comes after the loop. `wg.Wait()` returns when the counter is zero. -/
def stepMain (st : State) : State :=
  match st.main with
  | .looping (svc :: rest) =>
    { st with
      main := .looping rest
      wg := st.wg + 1
      units := st.units ++ [{ svc := svc, pc := .start }] }
  | .looping [] => if st.wg = 0 then { st with main := .joined } else st
  | .joined => { st with main := .returned st.errs }
  | .returned _ => st

/-- One step of the goroutine launched `i`-th. The call of `handleRollout`
together with the `lg.Debugf` line is one step; `mu.Lock()`, the read of `errs`,
the assignment to `errs`, `mu.Unlock()` and the deferred `wg.Done()` are one step
each. `mu.Lock()` does not move while the mutex is held. The counter of the wait
group is a natural number; `wg.Done()` is only ever run with a positive counter
(`Inv.wg_eq`). -/
def stepUnit (env : Env) (strategy : Strategy) (st : State) (i : Nat) : State :=
  match st.units.get? i with
  | none => st
  | some u =>
    match u.pc with
    | .start =>
      match handleRollout env u.svc strategy with
      | (some err, t) =>
        { st with
          units := st.units.set i { u with pc := .wantLock err }
          trace := st.trace ++ Event.callHandleRollout u.svc :: t
            ++ [Event.debugRolloutError u.svc.Metadata.Name err] }
      | (none, t) =>
        { st with
          units := st.units.set i { u with pc := .exiting }
          trace := st.trace ++ Event.callHandleRollout u.svc :: t }
    | .wantLock err =>
      if st.mu then st
      else { st with mu := true, units := st.units.set i { u with pc := .locked err } }
    | .locked err =>
      { st with units := st.units.set i { u with pc := .appending err st.errs } }
    | .appending err old =>
      { st with errs := old ++ [some err], units := st.units.set i { u with pc := .appended } }
    | .appended =>
      { st with mu := false, units := st.units.set i { u with pc := .exiting } }
    | .exiting =>
      { st with wg := st.wg - 1, units := st.units.set i { u with pc := .done } }
    | .done => st

/-- One step of the thread the scheduler picked. -/
def step (env : Env) (strategy : Strategy) (st : State) : Tid → State
  | .main => stepMain st
  | .unit i => stepUnit env strategy st i

/-- The state when the loop is about to start, `svcs` being the targeted services. -/
def initState (strategy : Strategy) (svcs : List ServiceRecord) : State :=
  { main := .looping svcs
    units := []
    errs := []
    mu := false
    wg := 0
    trace := Event.callGetTargetedServices strategy.Target
      :: (if svcs.length = 0 then [Event.warnNoService] else []) }

/-- Embedding of `runRollouts` under the schedule `sched`: the state reached. -/
def runRollouts (env : Env) (strategy : Strategy) (sched : List Tid) : State :=
  match env.getTargetedServices strategy.Target with
  | (_, some err) =>
    { main := .returned [Wrap (some err) "failed to get targeted services"]
      units := []
      errs := []
      mu := false
      wg := 0
      trace := [Event.callGetTargetedServices strategy.Target] }
  | (svcs, none) => sched.foldl (step env strategy) (initState strategy svcs)

/-- The slice `runRollouts` returned, if it has returned. -/
def State.result (st : State) : Option (List error) :=
  match st.main with
  | .returned errs => some errs
  | _ => none

/-- The services `handleRollout` was invoked for, in trace order. -/
def handleRolloutCalls : List Event → List ServiceRecord
  | [] => []
  | Event.callHandleRollout svc :: rest => svc :: handleRolloutCalls rest
  | _ :: rest => handleRolloutCalls rest

/-- A schedule that runs the goroutines one after the other: the caller launches
all `n` of them, each runs its six steps, the caller joins and returns. -/
def seqSchedule (n : Nat) : List Tid :=
  List.replicate n Tid.main
    ++ (List.range n).flatMap (fun i => List.replicate 6 (Tid.unit i))
    ++ [Tid.main, Tid.main]

/-! ## Observations on traces and sample environments -/

/-- The event is a call of `roll.Rollout()`, the only call that changes traffic. -/
def Event.isRolloutCall : Event → Bool
  | .callRollout _ _ _ _ => true
  | _ => false

/-- The event is a call of one of the two metrics-provider constructors. -/
def Event.isProviderConstruction : Event → Bool
  | .callSheetsNewProvider _ _ _ _ => true
  | .callStackdriverNewProvider _ _ _ => true
  | _ => false

/-- The two metrics backends. -/
inductive Backend where
  | sheets
  | stackdriver
  deriving DecidableEq, Repr

/-- The backends whose constructor a trace calls, in trace order. -/
def backendsSelected : List Event → List Backend
  | [] => []
  | Event.callSheetsNewProvider _ _ _ _ :: rest => Backend.sheets :: backendsSelected rest
  | Event.callStackdriverNewProvider _ _ _ :: rest => Backend.stackdriver :: backendsSelected rest
  | _ :: rest => backendsSelected rest

/-- A sample service. -/
def svcAlpha : ServiceRecord :=
  { Metadata := { Name := "alpha" }, Project := "proj", Region := "us-east1" }

/-- A second sample service, in the same project and region as `svcAlpha`. -/
def svcBeta : ServiceRecord :=
  { Metadata := { Name := "beta" }, Project := "proj", Region := "us-east1" }

/-- A third sample service, in another region. -/
def svcGamma : ServiceRecord :=
  { Metadata := { Name := "gamma" }, Project := "proj", Region := "europe-west1" }

/-- A sample strategy. -/
def strategyDemo : Strategy :=
  { Target := { handle := 0 }, Steps := [20, 50, 100] }

/-- Client construction that fails in `europe-west1` only. -/
def clientDemo (region : String) : Client × error :=
  ({ handle := 0 }, if region = "europe-west1" then some (GoError.base "no credentials") else none)

/-- Client construction that fails everywhere. -/
def clientDown (_region : String) : Client × error :=
  ({ handle := 0 }, some (GoError.base "no credentials"))

/-- A rollout engine that fails for the service named `beta` only. -/
def rolloutDemo (_provider : Provider) (svc : ServiceRecord) (_strategy : Strategy)
    (_client : Client) : Bool × error :=
  (true, if svc.Metadata.Name = "beta" then some (GoError.base "traffic update rejected") else none)

/-- A Cloud Monitoring constructor that fails. -/
def stackdriverDown (_project _region _svcName : String) : Provider × error :=
  ({ handle := 2 }, some (GoError.base "no quota"))

/-- A sample environment: no sheets ID, three targeted services, client
construction fails in `europe-west1`, the rollout of `beta` fails. -/
def envDemo : Env :=
  { flGoogleSheetsID := ""
    getTargetedServices := fun _ => ([svcAlpha, svcBeta, svcGamma], none)
    NewAPIClient := clientDemo
    sheetsNewProvider := fun _ _ _ _ => ({ handle := 1 }, none)
    stackdriverNewProvider := fun _ _ _ => ({ handle := 2 }, none)
    Rollout := rolloutDemo }

/-- The sample environment with a sheets ID configured. -/
def envSheets : Env :=
  { envDemo with flGoogleSheetsID := "sheet-1" }

/-- The sample environment with a failing Cloud Monitoring constructor. -/
def envNoMetrics : Env :=
  { envDemo with stackdriverNewProvider := stackdriverDown }

/-- The sample environment with failing target selection. -/
def envNoTargets : Env :=
  { envDemo with getTargetedServices := fun _ => ([], some (GoError.base "list failed")) }

/-- An environment in which client construction fails everywhere, with two
targeted services. -/
def envNoClient : Env :=
  { envDemo with
    getTargetedServices := fun _ => ([svcAlpha, svcBeta], none)
    NewAPIClient := clientDown }

/-! ## Bookkeeping for the invariant of `runRollouts` -/

/-- The entries the tick of `svc` contributes to the aggregated list: its error
if `handleRollout` fails for it, nothing otherwise. -/
def errorsOf (env : Env) (strategy : Strategy) (svc : ServiceRecord) : List error :=
  match (handleRollout env svc strategy).1 with
  | none => []
  | some e => [some e]

/-- The error a goroutine holds in its local `err` and has not appended yet. -/
def Goroutine.owed (u : Goroutine) : List error :=
  match u.pc with
  | .wantLock e => [some e]
  | .locked e => [some e]
  | .appending e _ => [some e]
  | _ => []

/-- The entries a goroutine is accountable for once it has called `handleRollout`. -/
def Goroutine.due (env : Env) (strategy : Strategy) (u : Goroutine) : List error :=
  match u.pc with
  | .start => []
  | _ => errorsOf env strategy u.svc

/-- The service a goroutine has called `handleRollout` for, once it has. -/
def Goroutine.called (u : Goroutine) : List ServiceRecord :=
  match u.pc with
  | .start => []
  | _ => [u.svc]

/-- One for a goroutine whose `wg.Done()` has not run, zero otherwise. -/
def Goroutine.live (u : Goroutine) : Nat :=
  match u.pc with
  | .done => 0
  | _ => 1

/-- The goroutine is between `mu.Lock()` and `mu.Unlock()`. -/
def Goroutine.inCritical (u : Goroutine) : Bool :=
  match u.pc with
  | .locked _ => true
  | .appending _ _ => true
  | .appended => true
  | _ => false

/-- One for a goroutine between `mu.Lock()` and `mu.Unlock()`, zero otherwise. -/
def Goroutine.crit (u : Goroutine) : Nat :=
  if u.inCritical then 1 else 0

/-- The number of steps a goroutine has left at most. -/
def Goroutine.stepsLeft (u : Goroutine) : Nat :=
  match u.pc with
  | .start => 6
  | .wantLock _ => 5
  | .locked _ => 4
  | .appending _ _ => 3
  | .appended => 2
  | .exiting => 1
  | .done => 0

/-- The services the caller has not launched yet. -/
def MainPc.rest : MainPc → List ServiceRecord
  | .looping rest => rest
  | _ => []

/-- The number of steps the caller has left at most, counting the steps of the
goroutines it still has to launch. -/
def MainPc.stepsLeft : MainPc → Nat
  | .looping rest => 7 * rest.length + 2
  | .joined => 1
  | .returned _ => 0

/-- The number of steps left in the whole call. -/
def State.stepsLeft (st : State) : Nat :=
  st.main.stepsLeft + (st.units.map Goroutine.stepsLeft).sum

/-- The invariant of a call of `runRollouts` whose targeted services are `svcs`. -/
structure Inv (env : Env) (strategy : Strategy) (svcs : List ServiceRecord) (st : State) :
    Prop where
  errs_count : ∀ x : error,
    st.errs.count x + (st.units.map (fun u => u.owed.count x)).sum
      = (st.units.map (fun u => (u.due env strategy).count x)).sum
  calls_count : ∀ s : ServiceRecord,
    (handleRolloutCalls st.trace).count s = (st.units.map (fun u => u.called.count s)).sum
  svcs_eq : st.units.map Goroutine.svc ++ st.main.rest = svcs
  wg_eq : st.wg = (st.units.map Goroutine.live).sum
  crit_count : (st.units.map Goroutine.crit).sum = if st.mu then 1 else 0
  snapshot : ∀ u ∈ st.units, ∀ (e : GoError) (old : List error),
    u.pc = Pc.appending e old → old = st.errs
  joined_wg : st.main = MainPc.joined → st.wg = 0
  returned_eq : ∀ r, st.main = MainPc.returned r → r = st.errs ∧ st.wg = 0


/-- A schedule for three goroutines in which the third one takes the mutex
first and the second one has to wait for it. -/
def schedInterleaved : List Tid :=
  [Tid.main, Tid.main, Tid.main, Tid.unit 2, Tid.unit 1, Tid.unit 2, Tid.unit 1, Tid.unit 0,
   Tid.unit 2, Tid.unit 1, Tid.unit 2, Tid.unit 2, Tid.unit 1, Tid.unit 1, Tid.unit 0,
   Tid.unit 2, Tid.unit 1, Tid.unit 1, Tid.unit 1, Tid.main, Tid.main]



/-! ## Rendering of the aggregated error list -/

theorem rolloutErrsToString_loop_succ (errs : List error) (i : Nat) (acc : String) :
    rolloutErrsToString.loop (i + 1) acc errs
      = String.intercalate.go acc "\n"
          ((List.enumFrom (i + 1) errs).map (fun p => errorEntry p.1 p.2)) := by
  induction errs generalizing i acc with
  | nil => simp [rolloutErrsToString.loop, String.intercalate.go]
  | cons e rest ih =>
    simp only [rolloutErrsToString.loop, List.enumFrom_cons, List.map_cons,
      String.intercalate.go, Nat.succ_pos, if_true, gt_iff_lt]
    rw [ih]
    simp [errorEntry, fmtD, String.append_assoc]

/-- C1: `rolloutErrsToString errs` is the list of entries `[error#i] <message>`,
`i` counting from zero in list order, joined by one newline between two
consecutive entries (none before the first, none after the last); the empty
list is rendered as the empty string. -/
theorem rolloutErrsToString_spec (errs : List error) :
    rolloutErrsToString errs
        = String.intercalate "\n" ((List.enum errs).map (fun p => errorEntry p.1 p.2))
      ∧ rolloutErrsToString [] = ""
      ∧ (∀ (i : Nat) (e : GoError), errorEntry i (some e)
            = "[error#" ++ Nat.repr i ++ "] " ++ e.Error) := by
  refine ⟨?_, rfl, fun _ _ => rfl⟩
  cases errs with
  | nil => rfl
  | cons e rest =>
    simp only [rolloutErrsToString, rolloutErrsToString.loop, List.enum, List.enumFrom_cons,
      List.map_cons, String.intercalate, gt_iff_lt, lt_self_iff_false, if_false]
    rw [rolloutErrsToString_loop_succ]
    simp [errorEntry, fmtD]


/-! ## chooseMetricsProvider and handleRollout -/

/-- C7: `chooseMetricsProvider` calls the sheets constructor, with the configured
sheets ID, an empty sheet name, the region and the service name, exactly when
the sheets ID is not the empty string, and the Cloud Monitoring constructor,
with project, region and service name, otherwise; the trace has exactly one
constructor call, and the pair that constructor returned is handed back as it
is. -/
theorem chooseMetricsProvider_spec (env : Env) (logger : LogFields)
    (project region svcName : String) :
    let r := chooseMetricsProvider env logger project region svcName
    (env.flGoogleSheetsID ≠ "" ↔
        r.2.filter Event.isProviderConstruction
          = [Event.callSheetsNewProvider env.flGoogleSheetsID "" region svcName])
      ∧ (env.flGoogleSheetsID = "" ↔
        r.2.filter Event.isProviderConstruction
          = [Event.callStackdriverNewProvider project region svcName])
      ∧ (env.flGoogleSheetsID ≠ "" →
        r.1 = env.sheetsNewProvider env.flGoogleSheetsID "" region svcName)
      ∧ (env.flGoogleSheetsID = "" →
        r.1 = env.stackdriverNewProvider project region svcName)
      ∧ (r.2.filter Event.isProviderConstruction).length = 1 := by
  by_cases h : env.flGoogleSheetsID = "" <;>
    simp [chooseMetricsProvider, h, Event.isProviderConstruction]

/-- Witness for C7 with a sheets ID configured. -/
theorem chooseMetricsProvider_spec_witness :
    (chooseMetricsProvider envSheets (logFields svcAlpha) "proj" "us-east1" "alpha").1
        = envSheets.sheetsNewProvider "sheet-1" "" "us-east1" "alpha"
      ∧ (chooseMetricsProvider envDemo (logFields svcAlpha) "proj" "us-east1" "alpha").1
        = envDemo.stackdriverNewProvider "proj" "us-east1" "alpha" :=
  ⟨(chooseMetricsProvider_spec envSheets (logFields svcAlpha) "proj" "us-east1" "alpha").2.2.1
      (by decide),
   (chooseMetricsProvider_spec envDemo (logFields svcAlpha) "proj" "us-east1" "alpha").2.2.2.1
      (by decide)⟩


/-! ### The four ways through `handleRollout` -/

theorem handleRollout_of_client_err (env : Env) (svc : ServiceRecord) (strategy : Strategy)
    (e : GoError) (h : (env.NewAPIClient svc.Region).2 = some e) :
    handleRollout env svc strategy
      = (some (GoError.wrap e "failed to initialize Cloud Run API client"),
          [Event.callNewAPIClient svc.Region]) := by
  rcases hc : env.NewAPIClient svc.Region with ⟨c, ce⟩
  rw [hc] at h
  simp only at h
  subst h
  simp [handleRollout, hc, Wrap]

theorem handleRollout_of_provider_err (env : Env) (svc : ServiceRecord) (strategy : Strategy)
    (e : GoError) (h1 : (env.NewAPIClient svc.Region).2 = none)
    (h2 : (chooseMetricsProvider env (logFields svc) svc.Project svc.Region
      svc.Metadata.Name).1.2 = some e) :
    handleRollout env svc strategy
      = (some (GoError.wrap e "failed to initialize metrics provider"),
          Event.callNewAPIClient svc.Region ::
            (chooseMetricsProvider env (logFields svc) svc.Project svc.Region
              svc.Metadata.Name).2) := by
  rcases hc : env.NewAPIClient svc.Region with ⟨c, ce⟩
  rw [hc] at h1
  simp only at h1
  subst h1
  rcases hp : chooseMetricsProvider env (logFields svc) svc.Project svc.Region
    svc.Metadata.Name with ⟨⟨p, pe⟩, t⟩
  rw [hp] at h2
  simp only at h2
  subst h2
  simp [handleRollout, hc, hp, Wrap]

theorem handleRollout_of_rollout_err (env : Env) (svc : ServiceRecord) (strategy : Strategy)
    (e : GoError) (h1 : (env.NewAPIClient svc.Region).2 = none)
    (h2 : (chooseMetricsProvider env (logFields svc) svc.Project svc.Region
      svc.Metadata.Name).1.2 = none)
    (h3 : (env.Rollout
      (chooseMetricsProvider env (logFields svc) svc.Project svc.Region svc.Metadata.Name).1.1
      svc strategy (env.NewAPIClient svc.Region).1).2 = some e) :
    handleRollout env svc strategy
      = (some (GoError.wrap e "rollout failed"),
          Event.callNewAPIClient svc.Region ::
            ((chooseMetricsProvider env (logFields svc) svc.Project svc.Region
              svc.Metadata.Name).2
            ++ [Event.callRollout
                (chooseMetricsProvider env (logFields svc) svc.Project svc.Region
                  svc.Metadata.Name).1.1
                svc strategy (env.NewAPIClient svc.Region).1,
              Event.errorRolloutFailed (logFields svc) e])) := by
  rcases hc : env.NewAPIClient svc.Region with ⟨c, ce⟩
  rw [hc] at h1 h3
  simp only at h1 h3
  subst h1
  rcases hp : chooseMetricsProvider env (logFields svc) svc.Project svc.Region
    svc.Metadata.Name with ⟨⟨p, pe⟩, t⟩
  rw [hp] at h2 h3
  simp only at h2 h3
  subst h2
  rcases hr : env.Rollout p svc strategy c with ⟨ch, re⟩
  rw [hr] at h3
  simp only at h3
  subst h3
  simp [handleRollout, hc, hp, hr, Wrap]

theorem handleRollout_of_all_ok (env : Env) (svc : ServiceRecord) (strategy : Strategy)
    (h1 : (env.NewAPIClient svc.Region).2 = none)
    (h2 : (chooseMetricsProvider env (logFields svc) svc.Project svc.Region
      svc.Metadata.Name).1.2 = none)
    (h3 : (env.Rollout
      (chooseMetricsProvider env (logFields svc) svc.Project svc.Region svc.Metadata.Name).1.1
      svc strategy (env.NewAPIClient svc.Region).1).2 = none) :
    (handleRollout env svc strategy).1 = none := by
  rcases hc : env.NewAPIClient svc.Region with ⟨c, ce⟩
  rw [hc] at h1 h3
  simp only at h1 h3
  subst h1
  rcases hp : chooseMetricsProvider env (logFields svc) svc.Project svc.Region
    svc.Metadata.Name with ⟨⟨p, pe⟩, t⟩
  rw [hp] at h2 h3
  simp only at h2 h3
  subst h2
  rcases hr : env.Rollout p svc strategy c with ⟨ch, re⟩
  rw [hr] at h3
  simp only at h3
  subst h3
  cases ch <;> simp [handleRollout, hc, hp, hr]

theorem chooseMetricsProvider_no_rollout (env : Env) (logger : LogFields)
    (project region svcName : String) :
    (chooseMetricsProvider env logger project region svcName).2.filter Event.isRolloutCall
      = [] := by
  by_cases h : env.flGoogleSheetsID = "" <;>
    simp [chooseMetricsProvider, h, Event.isRolloutCall]


/-- C5: `handleRollout` returns nil exactly when client construction, provider
construction and `roll.Rollout()` all return a nil error; and when the first two
succeed and `roll.Rollout()` returns `(changed, e)` with `e` non-nil, then
`handleRollout` returns `e` wrapped with "rollout failed", a non-nil error,
for either value of `changed`. -/
theorem handleRollout_nil_iff (env : Env) (svc : ServiceRecord) (strategy : Strategy) :
    ((handleRollout env svc strategy).1 = none ↔
        (env.NewAPIClient svc.Region).2 = none
        ∧ (chooseMetricsProvider env (logFields svc) svc.Project svc.Region
            svc.Metadata.Name).1.2 = none
        ∧ (env.Rollout
            (chooseMetricsProvider env (logFields svc) svc.Project svc.Region
              svc.Metadata.Name).1.1
            svc strategy (env.NewAPIClient svc.Region).1).2 = none)
      ∧ ∀ (changed : Bool) (e : GoError),
          (env.NewAPIClient svc.Region).2 = none →
          (chooseMetricsProvider env (logFields svc) svc.Project svc.Region
            svc.Metadata.Name).1.2 = none →
          env.Rollout
            (chooseMetricsProvider env (logFields svc) svc.Project svc.Region
              svc.Metadata.Name).1.1
            svc strategy (env.NewAPIClient svc.Region).1 = (changed, some e) →
          (handleRollout env svc strategy).1 = some (GoError.wrap e "rollout failed")
            ∧ (handleRollout env svc strategy).1 ≠ none := by
  refine ⟨⟨fun h => ?_, fun h => handleRollout_of_all_ok env svc strategy h.1 h.2.1 h.2.2⟩, ?_⟩
  · cases h1 : (env.NewAPIClient svc.Region).2 with
    | some e => rw [handleRollout_of_client_err env svc strategy e h1] at h; cases h
    | none =>
      cases h2 : (chooseMetricsProvider env (logFields svc) svc.Project svc.Region
          svc.Metadata.Name).1.2 with
      | some e => rw [handleRollout_of_provider_err env svc strategy e h1 h2] at h; cases h
      | none =>
        cases h3 : (env.Rollout
            (chooseMetricsProvider env (logFields svc) svc.Project svc.Region
              svc.Metadata.Name).1.1
            svc strategy (env.NewAPIClient svc.Region).1).2 with
        | some e => rw [handleRollout_of_rollout_err env svc strategy e h1 h2 h3] at h; cases h
        | none => exact ⟨rfl, rfl, rfl⟩
  · intro changed e h1 h2 h3
    have h3' : (env.Rollout
        (chooseMetricsProvider env (logFields svc) svc.Project svc.Region
          svc.Metadata.Name).1.1
        svc strategy (env.NewAPIClient svc.Region).1).2 = some e := by rw [h3]
    rw [handleRollout_of_rollout_err env svc strategy e h1 h2 h3']
    exact ⟨rfl, by simp⟩

/-- Witness for C5: the rollout of `beta` fails although it reports a change. -/
theorem handleRollout_nil_iff_witness :
    (handleRollout envDemo svcBeta strategyDemo).1
        = some (GoError.wrap (GoError.base "traffic update rejected") "rollout failed")
      ∧ (handleRollout envDemo svcBeta strategyDemo).1 ≠ none :=
  (handleRollout_nil_iff envDemo svcBeta strategyDemo).2 true
    (GoError.base "traffic update rejected") (by decide) (by decide) (by decide)

/-- C6: when client construction fails, `handleRollout` returns that error
wrapped with "failed to initialize Cloud Run API client" and its trace has
neither a provider constructor call nor a `roll.Rollout()` call; when client
construction succeeds and provider construction fails, it returns that error
wrapped with "failed to initialize metrics provider" and its trace has no
`roll.Rollout()` call. -/
theorem handleRollout_setup_failure (env : Env) (svc : ServiceRecord) (strategy : Strategy) :
    (∀ e : GoError, (env.NewAPIClient svc.Region).2 = some e →
        (handleRollout env svc strategy).1
            = some (GoError.wrap e "failed to initialize Cloud Run API client")
          ∧ (handleRollout env svc strategy).2.filter Event.isRolloutCall = []
          ∧ (handleRollout env svc strategy).2.filter Event.isProviderConstruction = [])
      ∧ (∀ e : GoError, (env.NewAPIClient svc.Region).2 = none →
          (chooseMetricsProvider env (logFields svc) svc.Project svc.Region
            svc.Metadata.Name).1.2 = some e →
          (handleRollout env svc strategy).1
              = some (GoError.wrap e "failed to initialize metrics provider")
            ∧ (handleRollout env svc strategy).2.filter Event.isRolloutCall = []) := by
  refine ⟨fun e h => ?_, fun e h1 h2 => ?_⟩
  · rw [handleRollout_of_client_err env svc strategy e h]
    simp [Event.isRolloutCall, Event.isProviderConstruction]
  · rw [handleRollout_of_provider_err env svc strategy e h1 h2]
    refine ⟨rfl, ?_⟩
    simp only [List.filter_cons, Event.isRolloutCall]
    simpa using chooseMetricsProvider_no_rollout env (logFields svc) svc.Project svc.Region
      svc.Metadata.Name

/-- Witness for C6: client construction fails for `gamma`, and provider
construction fails for `alpha` when Cloud Monitoring is down. -/
theorem handleRollout_setup_failure_witness :
    ((handleRollout envDemo svcGamma strategyDemo).1
        = some (GoError.wrap (GoError.base "no credentials")
            "failed to initialize Cloud Run API client")
      ∧ (handleRollout envDemo svcGamma strategyDemo).2.filter Event.isRolloutCall = []
      ∧ (handleRollout envDemo svcGamma strategyDemo).2.filter Event.isProviderConstruction = [])
    ∧ ((handleRollout envNoMetrics svcAlpha strategyDemo).1
        = some (GoError.wrap (GoError.base "no quota") "failed to initialize metrics provider")
      ∧ (handleRollout envNoMetrics svcAlpha strategyDemo).2.filter Event.isRolloutCall = []) :=
  ⟨(handleRollout_setup_failure envDemo svcGamma strategyDemo).1 (GoError.base "no credentials")
      (by decide),
   (handleRollout_setup_failure envNoMetrics svcAlpha strategyDemo).2 (GoError.base "no quota")
      (by decide) (by decide)⟩

/-- C10, as stated, fails: with the same collaborators and the same arguments,
the backend chosen changes with the process-wide flag `flGoogleSheetsID`. -/
theorem chooseMetricsProvider_reads_flag_counterexample :
    backendsSelected
        (chooseMetricsProvider envDemo (logFields svcAlpha) "proj" "us-east1" "alpha").2
      ≠ backendsSelected
        (chooseMetricsProvider envSheets (logFields svcAlpha) "proj" "us-east1" "alpha").2 := by
  decide

/-- C10, amended: the backend chosen is a function of the process-wide flag
`flGoogleSheetsID` alone: two invocations under the same value of the flag
choose the same backend, whatever their arguments, and the backend is the
sheets source exactly when the flag is not the empty string. -/
theorem chooseMetricsProvider_backend_of_flag (env₁ env₂ : Env) (lg₁ lg₂ : LogFields)
    (p₁ r₁ s₁ p₂ r₂ s₂ : String) (h : env₁.flGoogleSheetsID = env₂.flGoogleSheetsID) :
    backendsSelected (chooseMetricsProvider env₁ lg₁ p₁ r₁ s₁).2
        = backendsSelected (chooseMetricsProvider env₂ lg₂ p₂ r₂ s₂).2
      ∧ backendsSelected (chooseMetricsProvider env₁ lg₁ p₁ r₁ s₁).2
        = [if env₁.flGoogleSheetsID ≠ "" then Backend.sheets else Backend.stackdriver] := by
  by_cases h1 : env₁.flGoogleSheetsID = ""
  · have h2 : env₂.flGoogleSheetsID = "" := by rw [← h]; exact h1
    simp [chooseMetricsProvider, h1, h2, backendsSelected]
  · have h2 : ¬ env₂.flGoogleSheetsID = "" := by rw [← h]; exact h1
    simp [chooseMetricsProvider, h1, h2, backendsSelected]

/-- Witness for the amended C10: the same flag, different arguments. -/
theorem chooseMetricsProvider_backend_of_flag_witness :
    backendsSelected
        (chooseMetricsProvider envSheets (logFields svcAlpha) "proj" "us-east1" "alpha").2
      = backendsSelected
        (chooseMetricsProvider envSheets (logFields svcGamma) "other" "europe-west1" "gamma").2
    ∧ backendsSelected
        (chooseMetricsProvider envSheets (logFields svcAlpha) "proj" "us-east1" "alpha").2
      = [if envSheets.flGoogleSheetsID ≠ "" then Backend.sheets else Backend.stackdriver] :=
  chooseMetricsProvider_backend_of_flag envSheets envSheets (logFields svcAlpha)
    (logFields svcGamma) "proj" "us-east1" "alpha" "other" "europe-west1" "gamma" rfl


/-! ## The invariant of `runRollouts` -/

theorem get?_split {α : Type} (l : List α) (i : Nat) (u : α) (h : l.get? i = some u) :
    ∃ l1 l2, l = l1 ++ u :: l2 ∧ ∀ v, l.set i v = l1 ++ v :: l2 := by
  induction l generalizing i with
  | nil => simp at h
  | cons a l ih =>
    cases i with
    | zero =>
      simp at h
      subst h
      exact ⟨[], l, rfl, fun v => rfl⟩
    | succ i =>
      simp at h
      obtain ⟨l1, l2, h1, h2⟩ := ih i (by simpa using h)
      refine ⟨a :: l1, l2, by simp [h1], fun v => ?_⟩
      simp [h2]

theorem handleRolloutCalls_append (t1 t2 : List Event) :
    handleRolloutCalls (t1 ++ t2) = handleRolloutCalls t1 ++ handleRolloutCalls t2 := by
  induction t1 with
  | nil => rfl
  | cons e t ih => cases e <;> simp [handleRolloutCalls, ih]

theorem handleRolloutCalls_chooseMetricsProvider (env : Env) (logger : LogFields)
    (project region svcName : String) :
    handleRolloutCalls (chooseMetricsProvider env logger project region svcName).2 = [] := by
  by_cases h : env.flGoogleSheetsID = "" <;>
    simp [chooseMetricsProvider, h, handleRolloutCalls]

theorem handleRolloutCalls_handleRollout (env : Env) (svc : ServiceRecord)
    (strategy : Strategy) :
    handleRolloutCalls (handleRollout env svc strategy).2 = [] := by
  cases h1 : (env.NewAPIClient svc.Region).2 with
  | some e => rw [handleRollout_of_client_err env svc strategy e h1]; rfl
  | none =>
    cases h2 : (chooseMetricsProvider env (logFields svc) svc.Project svc.Region
        svc.Metadata.Name).1.2 with
    | some e =>
      rw [handleRollout_of_provider_err env svc strategy e h1 h2]
      simp [handleRolloutCalls, handleRolloutCalls_chooseMetricsProvider]
    | none =>
      rcases hc : env.NewAPIClient svc.Region with ⟨c, ce⟩
      rw [hc] at h1
      simp only at h1
      subst h1
      rcases hp : chooseMetricsProvider env (logFields svc) svc.Project svc.Region
        svc.Metadata.Name with ⟨⟨p, pe⟩, t⟩
      rw [hp] at h2
      simp only at h2
      subst h2
      have ht : handleRolloutCalls t = [] := by
        have := handleRolloutCalls_chooseMetricsProvider env (logFields svc) svc.Project
          svc.Region svc.Metadata.Name
        rw [hp] at this
        exact this
      rcases hr : env.Rollout p svc strategy c with ⟨ch, re⟩
      cases re with
      | some e =>
        simp [handleRollout, hc, hp, hr, handleRolloutCalls_append, handleRolloutCalls, ht]
      | none =>
        cases ch <;>
          simp [handleRollout, hc, hp, hr, handleRolloutCalls_append, handleRolloutCalls, ht]

theorem inv_initState (env : Env) (strategy : Strategy) (svcs : List ServiceRecord) :
    Inv env strategy svcs (initState strategy svcs) := by
  constructor
  · intro x; simp [initState]
  · intro s
    by_cases h : svcs.length = 0 <;> simp [initState, handleRolloutCalls, h]
  · simp [initState, MainPc.rest]
  · simp [initState]
  · simp [initState]
  · simp [initState]
  · simp [initState]
  · simp [initState]

theorem inv_stepMain (env : Env) (strategy : Strategy) (svcs : List ServiceRecord)
    (st : State) (h : Inv env strategy svcs st) : Inv env strategy svcs (stepMain st) := by
  unfold stepMain
  split
  · rename_i svc rest hm
    constructor
    · intro x
      have := h.errs_count x
      simp [Goroutine.owed, Goroutine.due, List.map_append, List.sum_append] at this ⊢
      exact this
    · intro s
      have := h.calls_count s
      simp [Goroutine.called, List.map_append, List.sum_append] at this ⊢
      exact this
    · have := h.svcs_eq
      simp [hm, MainPc.rest] at this ⊢
      exact this
    · have := h.wg_eq
      simp [Goroutine.live, List.map_append, List.sum_append] at this ⊢
      exact this
    · have := h.crit_count
      simp [Goroutine.crit, Goroutine.inCritical, List.map_append, List.sum_append] at this ⊢
      exact this
    · intro u hu e old hp
      simp only [List.mem_append, List.mem_singleton] at hu
      rcases hu with hu | rfl
      · exact h.snapshot u hu e old hp
      · cases hp
    · simp
    · simp
  · rename_i hm
    split
    · rename_i hwg
      constructor
      · exact h.errs_count
      · exact h.calls_count
      · have := h.svcs_eq
        simp [hm, MainPc.rest] at this ⊢
        exact this
      · exact h.wg_eq
      · exact h.crit_count
      · exact h.snapshot
      · intro _; exact hwg
      · simp
    · exact h
  · rename_i hm
    constructor
    · exact h.errs_count
    · exact h.calls_count
    · have := h.svcs_eq
      simp [hm, MainPc.rest] at this ⊢
      exact this
    · exact h.wg_eq
    · exact h.crit_count
    · exact h.snapshot
    · simp
    · intro r hr
      simp at hr
      exact ⟨hr.symm, h.joined_wg hm⟩
  · exact h


theorem live_sum_eq_zero (l : List Goroutine) (h : (l.map Goroutine.live).sum = 0) :
    ∀ u ∈ l, u.pc = Pc.done := by
  induction l with
  | nil => simp
  | cons a l ih =>
    simp only [List.map_cons, List.sum_cons] at h
    intro u hu
    rcases List.mem_cons.1 hu with rfl | hu
    · have ha : u.live = 0 := by omega
      revert ha
      cases hp : u.pc <;> simp [Goroutine.live, hp]
    · exact ih (by omega) u hu

theorem stepUnit_of_done (env : Env) (strategy : Strategy) (st : State) (i : Nat)
    (h : ∀ u ∈ st.units, u.pc = Pc.done) : stepUnit env strategy st i = st := by
  unfold stepUnit
  cases hg : st.units.get? i with
  | none => rfl
  | some u =>
    obtain ⟨l1, l2, hl, -⟩ := get?_split st.units i u hg
    have := h u (by rw [hl]; simp)
    simp [this]

theorem sum_map_middle (f : Goroutine → Nat) (l1 l2 : List Goroutine) (u : Goroutine) :
    ((l1 ++ u :: l2).map f).sum = (l1.map f).sum + f u + (l2.map f).sum := by
  simp [add_assoc]

theorem crit_sum_eq_zero (l : List Goroutine) (h : (l.map Goroutine.crit).sum = 0) :
    ∀ u ∈ l, u.inCritical = false := by
  induction l with
  | nil => simp
  | cons a l ih =>
    simp only [List.map_cons, List.sum_cons] at h
    intro u hu
    rcases List.mem_cons.1 hu with rfl | hu
    · have ha : u.crit = 0 := by omega
      revert ha
      cases hc : u.inCritical <;> simp [Goroutine.crit, hc]
    · exact ih (by omega) u hu

theorem exists_crit_of_sum_ne_zero (l : List Goroutine)
    (h : (l.map Goroutine.crit).sum ≠ 0) : ∃ u ∈ l, u.inCritical = true := by
  by_contra hc
  push_neg at hc
  apply h
  clear h
  induction l with
  | nil => rfl
  | cons a l ih =>
    have ha : a.crit = 0 := by simp [Goroutine.crit, hc a (by simp)]
    have := ih (fun u hu => hc u (by simp [hu]))
    simp only [List.map_cons, List.sum_cons, ha, this]

/-- While the mutex is held, some goroutine is between `mu.Lock()` and
`mu.Unlock()`. -/
theorem inv_mu_held (env : Env) (strategy : Strategy) (svcs : List ServiceRecord)
    (st : State) (h : Inv env strategy svcs st) (hmu : st.mu = true) :
    ∃ u ∈ st.units, u.inCritical = true := by
  apply exists_crit_of_sum_ne_zero
  rw [h.crit_count, hmu]
  simp

/-- The invariant survives the replacement of one goroutine `u` by `u'` when the
shared variables change in step with what the two goroutines account for. -/
theorem inv_replace (env : Env) (strategy : Strategy) (svcs : List ServiceRecord)
    (st st' : State) (l1 l2 : List Goroutine) (u u' : Goroutine)
    (h : Inv env strategy svcs st)
    (hl : st.units = l1 ++ u :: l2) (hl' : st'.units = l1 ++ u' :: l2)
    (hmain : st'.main = st.main) (hlive : u.live = 1) (hsvc : u'.svc = u.svc)
    (hE : ∀ x, st'.errs.count x + u'.owed.count x + (u.due env strategy).count x
      = st.errs.count x + u.owed.count x + (u'.due env strategy).count x)
    (hC : ∀ s, (handleRolloutCalls st'.trace).count s + u.called.count s
      = (handleRolloutCalls st.trace).count s + u'.called.count s)
    (hW : 1 ≤ st.wg → st'.wg + u.live = st.wg + u'.live)
    (hK : u.crit ≤ (if st.mu then 1 else 0) →
      (if st'.mu then 1 else 0) + u.crit = (if st.mu then 1 else 0) + u'.crit)
    (hS : ∀ (e : GoError) (old : List error), u'.pc = Pc.appending e old → old = st'.errs)
    (hO : st'.errs = st.errs ∨ u.inCritical = true) :
    Inv env strategy svcs st' := by
  have hwg : 1 ≤ st.wg := by
    have := h.wg_eq
    rw [hl, sum_map_middle] at this
    omega
  have hcrit := h.crit_count
  rw [hl, sum_map_middle] at hcrit
  have hle : (if st.mu then 1 else 0) ≤ 1 := by split <;> omega
  constructor
  · intro x
    have h1 := h.errs_count x
    have h2 := hE x
    rw [hl, sum_map_middle, sum_map_middle] at h1
    rw [hl', sum_map_middle, sum_map_middle]
    omega
  · intro s
    have h1 := h.calls_count s
    have h2 := hC s
    rw [hl, sum_map_middle] at h1
    rw [hl', sum_map_middle]
    omega
  · have h1 := h.svcs_eq
    rw [hl] at h1
    rw [hl', hmain]
    simpa [hsvc] using h1
  · have h1 := h.wg_eq
    have h2 := hW hwg
    rw [hl, sum_map_middle] at h1
    rw [hl', sum_map_middle]
    omega
  · have h2 := hK (by omega)
    rw [hl', sum_map_middle]
    omega
  · intro v hv e old hp
    rw [hl'] at hv
    simp only [List.mem_append, List.mem_cons] at hv
    have hother : v ∈ l1 ∨ v ∈ l2 → old = st'.errs := by
      intro hv'
      have hvin : v ∈ st.units := by
        rw [hl]
        rcases hv' with hv' | hv' <;> simp [hv']
      have hold := h.snapshot v hvin e old hp
      rcases hO with hO | hO
      · rw [hO]; exact hold
      · exfalso
        have hu1 : u.crit = 1 := by simp [Goroutine.crit, hO]
        have hvc : v.inCritical = true := by simp [Goroutine.inCritical, hp]
        rcases hv' with hv' | hv'
        · have := crit_sum_eq_zero l1 (by omega) v hv'
          rw [this] at hvc
          cases hvc
        · have := crit_sum_eq_zero l2 (by omega) v hv'
          rw [this] at hvc
          cases hvc
    rcases hv with hv | rfl | hv
    · exact hother (Or.inl hv)
    · exact hS e old hp
    · exact hother (Or.inr hv)
  · intro hm
    rw [hmain] at hm
    have := h.joined_wg hm
    omega
  · intro r hm
    rw [hmain] at hm
    have := (h.returned_eq r hm).2
    omega

theorem inv_stepUnit (env : Env) (strategy : Strategy) (svcs : List ServiceRecord)
    (st : State) (i : Nat) (h : Inv env strategy svcs st) :
    Inv env strategy svcs (stepUnit env strategy st i) := by
  unfold stepUnit
  cases hg : st.units.get? i with
  | none => exact h
  | some u =>
    obtain ⟨l1, l2, hl, hset⟩ := get?_split st.units i u hg
    have hu : u ∈ st.units := by rw [hl]; simp
    simp only
    cases hp : u.pc with
    | start =>
      have ht : handleRolloutCalls (handleRollout env u.svc strategy).2 = [] :=
        handleRolloutCalls_handleRollout env u.svc strategy
      rcases hh : handleRollout env u.svc strategy with ⟨_ | e, t⟩
      · rw [hh] at ht
        refine inv_replace env strategy svcs st _ l1 l2 u _ h hl (hset _) rfl
          (by simp [Goroutine.live, hp]) rfl ?_ ?_ ?_ ?_ ?_ (Or.inl rfl)
        · intro x; simp [Goroutine.owed, Goroutine.due, errorsOf, hp, hh]
        · intro s
          simp [Goroutine.called, hp, handleRolloutCalls_append, handleRolloutCalls, ht,
            List.count_cons]
        · intro _; simp [Goroutine.live, hp]
        · intro _; simp [Goroutine.crit, Goroutine.inCritical, hp]
        · intro e old hpc; simp at hpc
      · rw [hh] at ht
        refine inv_replace env strategy svcs st _ l1 l2 u _ h hl (hset _) rfl
          (by simp [Goroutine.live, hp]) rfl ?_ ?_ ?_ ?_ ?_ (Or.inl rfl)
        · intro x; simp [Goroutine.owed, Goroutine.due, errorsOf, hp, hh]
        · intro s
          simp [Goroutine.called, hp, handleRolloutCalls_append, handleRolloutCalls, ht,
            List.count_cons]
        · intro _; simp [Goroutine.live, hp]
        · intro _; simp [Goroutine.crit, Goroutine.inCritical, hp]
        · intro e old hpc; simp at hpc
    | wantLock e =>
      simp only
      by_cases hmu : st.mu = true
      · simp only [hmu, if_true]
        exact h
      · simp only [hmu]
        refine inv_replace env strategy svcs st _ l1 l2 u _ h hl (hset _) rfl
          (by simp [Goroutine.live, hp]) rfl ?_ ?_ ?_ ?_ ?_ (Or.inl rfl)
        · intro x; simp [Goroutine.owed, Goroutine.due, hp]
        · intro s; simp [Goroutine.called, hp]
        · intro _; simp [Goroutine.live, hp]
        · intro _; simp [Goroutine.crit, Goroutine.inCritical, hp, hmu]
        · intro e old hpc; simp at hpc
    | locked e =>
      simp only
      refine inv_replace env strategy svcs st _ l1 l2 u _ h hl (hset _) rfl
        (by simp [Goroutine.live, hp]) rfl ?_ ?_ ?_ ?_ ?_ (Or.inl rfl)
      · intro x; simp [Goroutine.owed, Goroutine.due, hp]
      · intro s; simp [Goroutine.called, hp]
      · intro _; simp [Goroutine.live, hp]
      · intro _; simp [Goroutine.crit, Goroutine.inCritical, hp]
      · intro e' old hpc
        simp at hpc
        exact hpc.2.symm
    | appending e old =>
      have hold : old = st.errs := h.snapshot u hu e old hp
      simp only
      refine inv_replace env strategy svcs st _ l1 l2 u _ h hl (hset _) rfl
        (by simp [Goroutine.live, hp]) rfl ?_ ?_ ?_ ?_ ?_
        (Or.inr (by simp [Goroutine.inCritical, hp]))
      · intro x; simp [Goroutine.owed, Goroutine.due, hp, hold, List.count_append]
      · intro s; simp [Goroutine.called, hp]
      · intro _; simp [Goroutine.live, hp]
      · intro _; simp [Goroutine.crit, Goroutine.inCritical, hp]
      · intro e' old' hpc; simp at hpc
    | appended =>
      simp only
      refine inv_replace env strategy svcs st _ l1 l2 u _ h hl (hset _) rfl
        (by simp [Goroutine.live, hp]) rfl ?_ ?_ ?_ ?_ ?_ (Or.inl rfl)
      · intro x; simp [Goroutine.owed, Goroutine.due, hp]
      · intro s; simp [Goroutine.called, hp]
      · intro _; simp [Goroutine.live, hp]
      · intro hle
        cases hmu : st.mu with
        | true => simp [Goroutine.crit, Goroutine.inCritical, hp]
        | false => simp [Goroutine.crit, Goroutine.inCritical, hp, hmu] at hle
      · intro e old hpc; simp at hpc
    | exiting =>
      simp only
      refine inv_replace env strategy svcs st _ l1 l2 u _ h hl (hset _) rfl
        (by simp [Goroutine.live, hp]) rfl ?_ ?_ ?_ ?_ ?_ (Or.inl rfl)
      · intro x; simp [Goroutine.owed, Goroutine.due, hp]
      · intro s; simp [Goroutine.called, hp]
      · intro hw; simp [Goroutine.live, hp]; omega
      · intro _; simp [Goroutine.crit, Goroutine.inCritical, hp]
      · intro e old hpc; simp at hpc
    | done => exact h

theorem inv_step (env : Env) (strategy : Strategy) (svcs : List ServiceRecord)
    (st : State) (t : Tid) (h : Inv env strategy svcs st) :
    Inv env strategy svcs (step env strategy st t) := by
  cases t with
  | main => exact inv_stepMain env strategy svcs st h
  | unit i => exact inv_stepUnit env strategy svcs st i h

theorem inv_foldl (env : Env) (strategy : Strategy) (svcs : List ServiceRecord)
    (sched : List Tid) (st : State) (h : Inv env strategy svcs st) :
    Inv env strategy svcs (sched.foldl (step env strategy) st) := by
  induction sched generalizing st with
  | nil => exact h
  | cons t sched ih => exact ih _ (inv_step env strategy svcs st t h)


/-! ## What a finished call has collected -/

theorem owed_of_done (u : Goroutine) (h : u.pc = Pc.done) : u.owed = [] := by
  simp [Goroutine.owed, h]

theorem due_of_done (env : Env) (strategy : Strategy) (u : Goroutine) (h : u.pc = Pc.done) :
    u.due env strategy = errorsOf env strategy u.svc := by
  simp [Goroutine.due, h]

theorem called_of_done (u : Goroutine) (h : u.pc = Pc.done) : u.called = [u.svc] := by
  simp [Goroutine.called, h]

theorem sum_owed_of_done (x : error) (l : List Goroutine) (h : ∀ u ∈ l, u.pc = Pc.done) :
    (l.map (fun u => u.owed.count x)).sum = 0 := by
  induction l with
  | nil => rfl
  | cons a l ih =>
    have ha := owed_of_done a (h a (by simp))
    have := ih (fun u hu => h u (by simp [hu]))
    simp only [List.map_cons, List.sum_cons, ha, List.count_nil, this]

theorem sum_due_of_done (env : Env) (strategy : Strategy) (x : error) (l : List Goroutine)
    (h : ∀ u ∈ l, u.pc = Pc.done) :
    (l.map (fun u => (u.due env strategy).count x)).sum
      = ((l.map Goroutine.svc).flatMap (errorsOf env strategy)).count x := by
  induction l with
  | nil => rfl
  | cons a l ih =>
    have ha := due_of_done env strategy a (h a (by simp))
    have := ih (fun u hu => h u (by simp [hu]))
    simp only [List.map_cons, List.sum_cons, ha, this, List.flatMap_cons, List.count_append]

theorem sum_called_of_done (s : ServiceRecord) (l : List Goroutine)
    (h : ∀ u ∈ l, u.pc = Pc.done) :
    (l.map (fun u => u.called.count s)).sum = (l.map Goroutine.svc).count s := by
  induction l with
  | nil => rfl
  | cons a l ih =>
    have ha := called_of_done a (h a (by simp))
    have := ih (fun u hu => h u (by simp [hu]))
    simp only [List.map_cons, List.sum_cons, ha, this, List.count_cons, List.count_nil]
    omega

theorem sum_called_le (s : ServiceRecord) (l : List Goroutine) :
    (l.map (fun u => u.called.count s)).sum ≤ (l.map Goroutine.svc).count s := by
  induction l with
  | nil => simp
  | cons a l ih =>
    simp only [List.map_cons, List.sum_cons, List.count_cons]
    have : a.called.count s ≤ if a.svc == s then 1 else 0 := by
      cases hp : a.pc <;> simp [Goroutine.called, hp, List.count_cons]
    omega

theorem errorsOf_flatMap (env : Env) (strategy : Strategy) (svcs : List ServiceRecord) :
    svcs.flatMap (errorsOf env strategy)
      = (svcs.map (fun s => (handleRollout env s strategy).1)).filter Option.isSome := by
  induction svcs with
  | nil => rfl
  | cons s svcs ih =>
    simp only [List.flatMap_cons, List.map_cons, ih]
    cases h : (handleRollout env s strategy).1 <;> simp [errorsOf, h]

theorem count_error_bridge (l : List error) (x : error) :
    @List.count error instBEqOfDecidableEq x l = l.count x := by
  induction l with
  | nil => rfl
  | cons a l ih =>
    have h1 : (@BEq.beq error instBEqOfDecidableEq a x) = decide (a = x) := rfl
    have h2 : (a == x) = decide (a = x) := by
      by_cases h : a = x
      · subst h
        simp
      · have : (a == x) = false := beq_eq_false_iff_ne.2 h
        rw [this]
        simp [h]
    rw [@List.count_cons _ instBEqOfDecidableEq, List.count_cons, ih, h1, h2]

theorem perm_of_count_eq (l1 l2 : List error) (h : ∀ x, l1.count x = l2.count x) :
    l1.Perm l2 := by
  rw [List.perm_iff_count]
  intro x
  rw [count_error_bridge, count_error_bridge]
  exact h x

/-- What the invariant says once `runRollouts` has returned. -/
theorem inv_returned (env : Env) (strategy : Strategy) (svcs : List ServiceRecord)
    (st : State) (h : Inv env strategy svcs st) (r : List error)
    (hr : st.result = some r) :
    r.Perm ((svcs.map (fun s => (handleRollout env s strategy).1)).filter Option.isSome)
      ∧ (handleRolloutCalls st.trace).Perm svcs
      ∧ (∀ u ∈ st.units, u.pc = Pc.done) := by
  have hm : st.main = MainPc.returned r := by
    unfold State.result at hr
    split at hr
    · rename_i e he
      simp at hr
      rw [he, hr]
    · cases hr
  obtain ⟨hre, hwg⟩ := h.returned_eq r hm
  have hdone : ∀ u ∈ st.units, u.pc = Pc.done :=
    live_sum_eq_zero st.units (by rw [← h.wg_eq]; exact hwg)
  have hsv : st.units.map Goroutine.svc = svcs := by
    have := h.svcs_eq
    rw [hm] at this
    simpa [MainPc.rest] using this
  refine ⟨?_, ?_, hdone⟩
  · rw [← errorsOf_flatMap]
    apply perm_of_count_eq
    intro x
    have := h.errs_count x
    rw [sum_owed_of_done x st.units hdone, sum_due_of_done env strategy x st.units hdone,
      hsv] at this
    rw [hre]
    omega
  · rw [List.perm_iff_count]
    intro s
    have := h.calls_count s
    rw [sum_called_of_done s st.units hdone, hsv] at this
    exact this

/-- At every moment of a call, no service has been handled more often than it
is targeted. -/
theorem inv_calls_le (env : Env) (strategy : Strategy) (svcs : List ServiceRecord)
    (st : State) (h : Inv env strategy svcs st) (s : ServiceRecord) :
    (handleRolloutCalls st.trace).count s ≤ svcs.count s := by
  have h1 := h.calls_count s
  have h2 := sum_called_le s st.units
  have h3 := h.svcs_eq
  rw [← h3, List.count_append]
  omega


/-! ## Every call can be run to its return -/

theorem exists_get?_of_mem {α : Type} (l : List α) (a : α) (h : a ∈ l) :
    ∃ i, l.get? i = some a := by
  induction l with
  | nil => cases h
  | cons b l ih =>
    rcases List.mem_cons.1 h with rfl | h
    · exact ⟨0, rfl⟩
    · obtain ⟨i, hi⟩ := ih h
      exact ⟨i + 1, by simpa using hi⟩

theorem exists_live_of_sum_ne_zero (l : List Goroutine)
    (h : (l.map Goroutine.live).sum ≠ 0) : ∃ u ∈ l, u.pc ≠ Pc.done := by
  by_contra hc
  push_neg at hc
  apply h
  clear h
  induction l with
  | nil => rfl
  | cons a l ih =>
    have ha : a.live = 0 := by simp [Goroutine.live, hc a (by simp)]
    have := ih (fun u hu => hc u (by simp [hu]))
    simp only [List.map_cons, List.sum_cons, ha, this]

theorem stepUnit_stepsLeft_lt (env : Env) (strategy : Strategy) (st : State) (i : Nat)
    (u : Goroutine) (hg : st.units.get? i = some u) (hnd : u.pc ≠ Pc.done)
    (hfree : st.mu = false ∨ u.inCritical = true) :
    (stepUnit env strategy st i).stepsLeft < st.stepsLeft := by
  obtain ⟨l1, l2, hl, hset⟩ := get?_split st.units i u hg
  have h0 : st.stepsLeft = st.main.stepsLeft + ((l1.map Goroutine.stepsLeft).sum
      + u.stepsLeft + (l2.map Goroutine.stepsLeft).sum) := by
    rw [State.stepsLeft, hl, sum_map_middle]
  unfold stepUnit
  rw [hg]
  simp only
  cases hp : u.pc with
  | start =>
    rcases hh : handleRollout env u.svc strategy with ⟨_ | e, t⟩
    · simp only [State.stepsLeft, hset, sum_map_middle] at h0 ⊢
      simp only [Goroutine.stepsLeft, hp] at h0 ⊢
      omega
    · simp only [State.stepsLeft, hset, sum_map_middle] at h0 ⊢
      simp only [Goroutine.stepsLeft, hp] at h0 ⊢
      omega
  | wantLock e =>
    have hmu : st.mu = false := by
      rcases hfree with h | h
      · exact h
      · simp [Goroutine.inCritical, hp] at h
    simp only [hmu, Bool.false_eq_true, if_false]
    simp only [State.stepsLeft, hset, sum_map_middle] at h0 ⊢
    simp only [Goroutine.stepsLeft, hp] at h0 ⊢
    omega
  | locked e =>
    simp only [State.stepsLeft, hset, sum_map_middle] at h0 ⊢
    simp only [Goroutine.stepsLeft, hp] at h0 ⊢
    omega
  | appending e old =>
    simp only [State.stepsLeft, hset, sum_map_middle] at h0 ⊢
    simp only [Goroutine.stepsLeft, hp] at h0 ⊢
    omega
  | appended =>
    simp only [State.stepsLeft, hset, sum_map_middle] at h0 ⊢
    simp only [Goroutine.stepsLeft, hp] at h0 ⊢
    omega
  | exiting =>
    simp only [State.stepsLeft, hset, sum_map_middle] at h0 ⊢
    simp only [Goroutine.stepsLeft, hp] at h0 ⊢
    omega
  | done => exact absurd hp hnd

theorem exists_step_lt (env : Env) (strategy : Strategy) (svcs : List ServiceRecord)
    (st : State) (h : Inv env strategy svcs st) (hr : st.result = none) :
    ∃ t, (step env strategy st t).stepsLeft < st.stepsLeft := by
  cases hm : st.main with
  | looping rest =>
    cases rest with
    | cons svc rest =>
      refine ⟨Tid.main, ?_⟩
      simp [step, stepMain, hm, State.stepsLeft, MainPc.stepsLeft, Goroutine.stepsLeft]
      omega
    | nil =>
      by_cases hwg : st.wg = 0
      · refine ⟨Tid.main, ?_⟩
        simp [step, stepMain, hm, hwg, State.stepsLeft, MainPc.stepsLeft]
      · by_cases hmu : st.mu = true
        · obtain ⟨u, hu, hc⟩ := inv_mu_held env strategy svcs st h hmu
          obtain ⟨i, hi⟩ := exists_get?_of_mem st.units u hu
          refine ⟨Tid.unit i, stepUnit_stepsLeft_lt env strategy st i u hi ?_ (Or.inr hc)⟩
          intro hd
          simp [Goroutine.inCritical, hd] at hc
        · have hmu' : st.mu = false := by simpa using hmu
          obtain ⟨u, hu, hd⟩ := exists_live_of_sum_ne_zero st.units
            (by rw [← h.wg_eq]; exact hwg)
          obtain ⟨i, hi⟩ := exists_get?_of_mem st.units u hu
          exact ⟨Tid.unit i, stepUnit_stepsLeft_lt env strategy st i u hi hd (Or.inl hmu')⟩
  | joined =>
    refine ⟨Tid.main, ?_⟩
    simp [step, stepMain, hm, State.stepsLeft, MainPc.stepsLeft]
  | returned r =>
    simp [State.result, hm] at hr

theorem exists_completion_aux (env : Env) (strategy : Strategy) (svcs : List ServiceRecord)
    (n : Nat) : ∀ st : State, Inv env strategy svcs st → st.stepsLeft ≤ n →
      ∃ ext : List Tid, ext.length ≤ n ∧
        ((ext.foldl (step env strategy) st).result).isSome = true := by
  induction n with
  | zero =>
    intro st h hn
    cases hr : st.result with
    | some r => exact ⟨[], by simp, by simp [hr]⟩
    | none =>
      obtain ⟨t, ht⟩ := exists_step_lt env strategy svcs st h hr
      omega
  | succ n ih =>
    intro st h hn
    cases hr : st.result with
    | some r => exact ⟨[], by simp, by simp [hr]⟩
    | none =>
      obtain ⟨t, ht⟩ := exists_step_lt env strategy svcs st h hr
      obtain ⟨ext, hlen, hext⟩ := ih (step env strategy st t)
        (inv_step env strategy svcs st t h) (by omega)
      exact ⟨t :: ext, by simp; omega, by simpa using hext⟩

/-- From every state a call can reach, some continuation of the schedule, no
longer than the number of steps left, makes `runRollouts` return. -/
theorem exists_completion (env : Env) (strategy : Strategy) (svcs : List ServiceRecord)
    (st : State) (h : Inv env strategy svcs st) :
    ∃ ext : List Tid, ext.length ≤ st.stepsLeft ∧
      ((ext.foldl (step env strategy) st).result).isSome = true :=
  exists_completion_aux env strategy svcs st.stepsLeft st h (Nat.le_refl _)


/-! ## runRollouts -/

theorem runRollouts_of_ok (env : Env) (strategy : Strategy) (svcs : List ServiceRecord)
    (h : env.getTargetedServices strategy.Target = (svcs, none)) (sched : List Tid) :
    runRollouts env strategy sched = sched.foldl (step env strategy) (initState strategy svcs) := by
  simp [runRollouts, h]

theorem inv_runRollouts (env : Env) (strategy : Strategy) (svcs : List ServiceRecord)
    (h : env.getTargetedServices strategy.Target = (svcs, none)) (sched : List Tid) :
    Inv env strategy svcs (runRollouts env strategy sched) := by
  rw [runRollouts_of_ok env strategy svcs h]
  exact inv_foldl env strategy svcs sched _ (inv_initState env strategy svcs)

theorem runRollouts_completion (env : Env) (strategy : Strategy) (svcs : List ServiceRecord)
    (h : env.getTargetedServices strategy.Target = (svcs, none)) (sched : List Tid) :
    ∃ ext : List Tid, ((runRollouts env strategy (sched ++ ext)).result).isSome = true := by
  obtain ⟨ext, -, hext⟩ := exists_completion env strategy svcs _
    (inv_runRollouts env strategy svcs h sched)
  refine ⟨ext, ?_⟩
  rw [runRollouts_of_ok env strategy svcs h] at hext
  rw [runRollouts_of_ok env strategy svcs h, List.foldl_append]
  exact hext

theorem length_filter_isSome (env : Env) (strategy : Strategy) (svcs : List ServiceRecord) :
    ((svcs.map (fun s => (handleRollout env s strategy).1)).filter Option.isSome).length
      = svcs.countP (fun s => ((handleRollout env s strategy).1).isSome) := by
  induction svcs with
  | nil => rfl
  | cons s svcs ih =>
    cases h : (handleRollout env s strategy).1 <;>
      simp [List.filter_cons, List.countP_cons, h, ih]

/-- C2: when `getTargetedServices` fails with `e`, `runRollouts` returns, under
every schedule, the one-element list holding `e` wrapped with "failed to get
targeted services"; no goroutine is launched and `handleRollout` is invoked for
no service. -/
theorem runRollouts_selection_error (env : Env) (strategy : Strategy) (e : GoError)
    (h : (env.getTargetedServices strategy.Target).2 = some e) (sched : List Tid) :
    (runRollouts env strategy sched).result
        = some [some (GoError.wrap e "failed to get targeted services")]
      ∧ (runRollouts env strategy sched).units = []
      ∧ handleRolloutCalls (runRollouts env strategy sched).trace = [] := by
  rcases hg : env.getTargetedServices strategy.Target with ⟨svcs, ge⟩
  rw [hg] at h
  simp only at h
  subst h
  simp [runRollouts, hg, State.result, Wrap, handleRolloutCalls]

/-- Witness for C2: target selection fails in `envNoTargets`. -/
theorem runRollouts_selection_error_witness :
    (runRollouts envNoTargets strategyDemo schedInterleaved).result
        = some [some (GoError.wrap (GoError.base "list failed")
            "failed to get targeted services")]
      ∧ (runRollouts envNoTargets strategyDemo schedInterleaved).units = []
      ∧ handleRolloutCalls (runRollouts envNoTargets strategyDemo schedInterleaved).trace = [] :=
  runRollouts_selection_error envNoTargets strategyDemo (GoError.base "list failed")
    (by decide) schedInterleaved

/-- C3: when target selection succeeds with `svcs`, every schedule can be
continued so that `runRollouts` returns, and under every schedule the list it
returns is a permutation of the non-nil errors `handleRollout` returns for the
services of `svcs`: it has one entry per failing service and none for a service
that succeeds, it is empty when `svcs` is empty or when every service succeeds,
and it has exactly one entry when exactly one service fails. -/
theorem runRollouts_collects (env : Env) (strategy : Strategy) (svcs : List ServiceRecord)
    (h : env.getTargetedServices strategy.Target = (svcs, none)) :
    (∀ sched : List Tid, ∃ ext : List Tid,
        ((runRollouts env strategy (sched ++ ext)).result).isSome = true)
      ∧ ∀ (sched : List Tid) (errs : List error),
          (runRollouts env strategy sched).result = some errs →
          errs.Perm ((svcs.map (fun s => (handleRollout env s strategy).1)).filter Option.isSome)
            ∧ errs.length = svcs.countP (fun s => ((handleRollout env s strategy).1).isSome)
            ∧ (svcs = [] → errs = [])
            ∧ ((∀ s ∈ svcs, (handleRollout env s strategy).1 = none) → errs = [])
            ∧ (svcs.countP (fun s => ((handleRollout env s strategy).1).isSome) = 1 →
                errs.length = 1) := by
  refine ⟨runRollouts_completion env strategy svcs h, fun sched errs hr => ?_⟩
  have hp := (inv_returned env strategy svcs _ (inv_runRollouts env strategy svcs h sched)
    errs hr).1
  have hlen : errs.length = svcs.countP (fun s => ((handleRollout env s strategy).1).isSome) := by
    rw [hp.length_eq, length_filter_isSome]
  refine ⟨hp, hlen, fun h0 => ?_, fun hall => ?_, fun h1 => by rw [hlen, h1]⟩
  · subst h0
    simpa using hlen
  · have : svcs.countP (fun s => ((handleRollout env s strategy).1).isSome) = 0 := by
      rw [List.countP_eq_zero]
      intro s hs
      simp [hall s hs]
    rw [this] at hlen
    exact List.length_eq_zero.1 hlen

/-- Witness for C3: three services, two of them failing, under a schedule in
which the goroutine launched last appends first. -/
theorem runRollouts_collects_witness :
    [some (GoError.wrap (GoError.base "no credentials")
        "failed to initialize Cloud Run API client"),
      some (GoError.wrap (GoError.base "traffic update rejected") "rollout failed")].Perm
      (([svcAlpha, svcBeta, svcGamma].map
        (fun s => (handleRollout envDemo s strategyDemo).1)).filter Option.isSome) :=
  ((runRollouts_collects envDemo strategyDemo [svcAlpha, svcBeta, svcGamma] rfl).2
    schedInterleaved
    [some (GoError.wrap (GoError.base "no credentials")
        "failed to initialize Cloud Run API client"),
      some (GoError.wrap (GoError.base "traffic update rejected") "rollout failed")]
    (by decide)).1

/-- C4: when target selection succeeds with `svcs`, at no moment of any schedule
has `handleRollout` been invoked for a service more often than the service
occurs in `svcs`; every schedule can be continued so that `runRollouts` returns;
and when it has returned, the invocations of `handleRollout` are a permutation
of `svcs`: one invocation per targeted service, whatever `handleRollout`
returns for the others. -/
theorem runRollouts_handles_each_once (env : Env) (strategy : Strategy)
    (svcs : List ServiceRecord)
    (h : env.getTargetedServices strategy.Target = (svcs, none)) :
    (∀ (sched : List Tid) (s : ServiceRecord),
        (handleRolloutCalls (runRollouts env strategy sched).trace).count s ≤ svcs.count s)
      ∧ (∀ sched : List Tid, ∃ ext : List Tid,
          ((runRollouts env strategy (sched ++ ext)).result).isSome = true)
      ∧ ∀ (sched : List Tid) (errs : List error),
          (runRollouts env strategy sched).result = some errs →
          (handleRolloutCalls (runRollouts env strategy sched).trace).Perm svcs
            ∧ ∀ s : ServiceRecord,
              (handleRolloutCalls (runRollouts env strategy sched).trace).count s
                = svcs.count s := by
  refine ⟨fun sched s => inv_calls_le env strategy svcs _
      (inv_runRollouts env strategy svcs h sched) s,
    runRollouts_completion env strategy svcs h, fun sched errs hr => ?_⟩
  have hp := (inv_returned env strategy svcs _ (inv_runRollouts env strategy svcs h sched)
    errs hr).2.1
  exact ⟨hp, fun s => hp.count_eq s⟩

/-- Witness for C4: the three services of `envDemo`, two of them failing. -/
theorem runRollouts_handles_each_once_witness :
    (handleRolloutCalls (runRollouts envDemo strategyDemo schedInterleaved).trace).Perm
        [svcAlpha, svcBeta, svcGamma] :=
  ((runRollouts_handles_each_once envDemo strategyDemo [svcAlpha, svcBeta, svcGamma] rfl).2.2
    schedInterleaved
    [some (GoError.wrap (GoError.base "no credentials")
        "failed to initialize Cloud Run API client"),
      some (GoError.wrap (GoError.base "traffic update rejected") "rollout failed")]
    (by decide)).1


/-! ## Synchronisation -/

theorem get?_set_of_ne {α : Type} (l : List α) (i j : Nat) (v : α) (h : j ≠ i) :
    (l.set i v).get? j = l.get? j := by
  induction l generalizing i j with
  | nil => rfl
  | cons a l ih =>
    cases i with
    | zero =>
      cases j with
      | zero => exact absurd rfl h
      | succ j => rfl
    | succ i =>
      cases j with
      | zero => rfl
      | succ j =>
        simp only [List.set_cons_succ, List.get?_cons_succ]
        exact ih i j (by omega)

/-- A step of the goroutine launched `i`-th leaves the caller and every other
goroutine where they are. -/
theorem stepUnit_frame (env : Env) (strategy : Strategy) (st : State) (i : Nat) :
    (stepUnit env strategy st i).main = st.main
      ∧ (stepUnit env strategy st i).units.length = st.units.length
      ∧ ∀ j, j ≠ i → (stepUnit env strategy st i).units.get? j = st.units.get? j := by
  unfold stepUnit
  cases hg : st.units.get? i with
  | none => exact ⟨rfl, rfl, fun _ _ => rfl⟩
  | some u =>
    simp only
    cases hp : u.pc with
    | start =>
      rcases hh : handleRollout env u.svc strategy with ⟨_ | e, t⟩
      · exact ⟨rfl, by simp, fun j hj => get?_set_of_ne _ i j _ hj⟩
      · exact ⟨rfl, by simp, fun j hj => get?_set_of_ne _ i j _ hj⟩
    | wantLock e =>
      simp only
      by_cases hmu : st.mu = true
      · simp [hmu]
      · simp only [hmu]
        exact ⟨rfl, by simp, fun j hj => get?_set_of_ne _ i j _ hj⟩
    | locked e => exact ⟨rfl, by simp, fun j hj => get?_set_of_ne _ i j _ hj⟩
    | appending e old => exact ⟨rfl, by simp, fun j hj => get?_set_of_ne _ i j _ hj⟩
    | appended => exact ⟨rfl, by simp, fun j hj => get?_set_of_ne _ i j _ hj⟩
    | exiting => exact ⟨rfl, by simp, fun j hj => get?_set_of_ne _ i j _ hj⟩
    | done => exact ⟨rfl, rfl, fun _ _ => rfl⟩

theorem inv_returned_units (env : Env) (strategy : Strategy) (svcs : List ServiceRecord)
    (st : State) (h : Inv env strategy svcs st) (r : List error)
    (hr : st.result = some r) :
    st.units.map Goroutine.svc = svcs ∧ r = st.errs := by
  have hm : st.main = MainPc.returned r := by
    unfold State.result at hr
    split at hr
    · rename_i e he
      simp at hr
      rw [he, hr]
    · cases hr
  refine ⟨?_, (h.returned_eq r hm).1⟩
  have := h.svcs_eq
  rw [hm] at this
  simpa [MainPc.rest] using this

/-- C9: when target selection succeeds with `svcs`, under every schedule
(1) `runRollouts` has returned only if a goroutine was launched for every
service of `svcs` and every goroutine has run its `wg.Done()`, and what it
returns is the shared list, a permutation of the non-nil errors of
`handleRollout`, so none is lost and none is duplicated;
(2) at most one goroutine is between `mu.Lock()` and `mu.Unlock()`, and a
goroutine that has read `errs` for its append finds `errs` unchanged when it
assigns;
(3) a step of a goroutine changes neither the caller nor any other goroutine:
besides its own locals it writes only `errs` and the synchronisation objects;
(4) the schedule can be continued so that `runRollouts` returns. -/
theorem runRollouts_synchronised (env : Env) (strategy : Strategy)
    (svcs : List ServiceRecord)
    (h : env.getTargetedServices strategy.Target = (svcs, none)) (sched : List Tid) :
    (∀ errs : List error, (runRollouts env strategy sched).result = some errs →
        (runRollouts env strategy sched).units.map Goroutine.svc = svcs
          ∧ (∀ u ∈ (runRollouts env strategy sched).units, u.pc = Pc.done)
          ∧ errs = (runRollouts env strategy sched).errs
          ∧ errs.Perm
              ((svcs.map (fun s => (handleRollout env s strategy).1)).filter Option.isSome))
      ∧ (((runRollouts env strategy sched).units.map Goroutine.crit).sum ≤ 1
          ∧ ∀ u ∈ (runRollouts env strategy sched).units,
              ∀ (e : GoError) (old : List error),
                u.pc = Pc.appending e old → old = (runRollouts env strategy sched).errs)
      ∧ (∀ i : Nat,
          (stepUnit env strategy (runRollouts env strategy sched) i).main
              = (runRollouts env strategy sched).main
            ∧ ∀ j, j ≠ i →
              (stepUnit env strategy (runRollouts env strategy sched) i).units.get? j
                = (runRollouts env strategy sched).units.get? j)
      ∧ ∃ ext : List Tid, ((runRollouts env strategy (sched ++ ext)).result).isSome = true := by
  have hinv := inv_runRollouts env strategy svcs h sched
  refine ⟨fun errs hr => ?_, ⟨?_, hinv.snapshot⟩, fun i => ?_,
    runRollouts_completion env strategy svcs h sched⟩
  · obtain ⟨hp, -, hd⟩ := inv_returned env strategy svcs _ hinv errs hr
    obtain ⟨hs, he⟩ := inv_returned_units env strategy svcs _ hinv errs hr
    exact ⟨hs, hd, he, hp⟩
  · rw [hinv.crit_count]
    split <;> omega
  · have := stepUnit_frame env strategy (runRollouts env strategy sched) i
    exact ⟨this.1, this.2.2⟩

/-- Witness for C9: the three services of `envDemo` under the interleaved
schedule. -/
theorem runRollouts_synchronised_witness :
    ((runRollouts envDemo strategyDemo schedInterleaved).units.map Goroutine.crit).sum ≤ 1
      ∧ ∃ ext : List Tid,
          ((runRollouts envDemo strategyDemo (schedInterleaved ++ ext)).result).isSome = true :=
  ⟨(runRollouts_synchronised envDemo strategyDemo [svcAlpha, svcBeta, svcGamma] rfl
      schedInterleaved).2.1.1,
    (runRollouts_synchronised envDemo strategyDemo [svcAlpha, svcBeta, svcGamma] rfl
      schedInterleaved).2.2.2⟩

/-! ## What a collected error says -/

/-- C8, as stated, fails: client construction fails with the same cause for the
services `alpha` and `beta`; the two errors `handleRollout` returns are equal,
their message names neither service, and `runRollouts` returns the same entry
twice. -/
theorem handleRollout_error_identity_counterexample :
    svcAlpha.Metadata.Name ≠ svcBeta.Metadata.Name
      ∧ (handleRollout envNoClient svcAlpha strategyDemo).1
          = (handleRollout envNoClient svcBeta strategyDemo).1
      ∧ fmtV (handleRollout envNoClient svcAlpha strategyDemo).1
          = "failed to initialize Cloud Run API client: no credentials"
      ∧ ¬ ("alpha".data <:+: (fmtV (handleRollout envNoClient svcAlpha strategyDemo).1).data)
      ∧ (runRollouts envNoClient strategyDemo (seqSchedule 2)).result
          = some [some (GoError.wrap (GoError.base "no credentials")
                "failed to initialize Cloud Run API client"),
              some (GoError.wrap (GoError.base "no credentials")
                "failed to initialize Cloud Run API client")] := by
  decide

/-- C8, amended: the error `handleRollout` returns for a failing tick is the
error of the collaborator that failed, wrapped with the message of that very
stage: "failed to initialize Cloud Run API client" when client construction
fails, "failed to initialize metrics provider" when client construction succeeds
and provider construction fails, "rollout failed" when both succeed and
`roll.Rollout()` fails; when all three succeed it is nil. Its message is the
stage message, a colon and a blank, and the cause's message, with nothing about
the service added: two services that fail at the same stage with the same cause
get equal errors. The list `runRollouts` returns is a permutation of these
errors of the targeted services. -/
theorem handleRollout_error_shape (env : Env) (strategy : Strategy) :
    (∀ (svc : ServiceRecord) (c : GoError), (env.NewAPIClient svc.Region).2 = some c →
        (handleRollout env svc strategy).1
            = some (GoError.wrap c "failed to initialize Cloud Run API client")
          ∧ fmtV (handleRollout env svc strategy).1
            = "failed to initialize Cloud Run API client" ++ ": " ++ c.Error)
      ∧ (∀ (svc : ServiceRecord) (c : GoError), (env.NewAPIClient svc.Region).2 = none →
          (chooseMetricsProvider env (logFields svc) svc.Project svc.Region
            svc.Metadata.Name).1.2 = some c →
          (handleRollout env svc strategy).1
              = some (GoError.wrap c "failed to initialize metrics provider")
            ∧ fmtV (handleRollout env svc strategy).1
              = "failed to initialize metrics provider" ++ ": " ++ c.Error)
      ∧ (∀ (svc : ServiceRecord) (c : GoError), (env.NewAPIClient svc.Region).2 = none →
          (chooseMetricsProvider env (logFields svc) svc.Project svc.Region
            svc.Metadata.Name).1.2 = none →
          (env.Rollout
            (chooseMetricsProvider env (logFields svc) svc.Project svc.Region
              svc.Metadata.Name).1.1
            svc strategy (env.NewAPIClient svc.Region).1).2 = some c →
          (handleRollout env svc strategy).1 = some (GoError.wrap c "rollout failed")
            ∧ fmtV (handleRollout env svc strategy).1 = "rollout failed" ++ ": " ++ c.Error)
      ∧ (∀ svc : ServiceRecord, (env.NewAPIClient svc.Region).2 = none →
          (chooseMetricsProvider env (logFields svc) svc.Project svc.Region
            svc.Metadata.Name).1.2 = none →
          (env.Rollout
            (chooseMetricsProvider env (logFields svc) svc.Project svc.Region
              svc.Metadata.Name).1.1
            svc strategy (env.NewAPIClient svc.Region).1).2 = none →
          (handleRollout env svc strategy).1 = none)
      ∧ (∀ (svc₁ svc₂ : ServiceRecord) (c : GoError),
          (env.NewAPIClient svc₁.Region).2 = some c →
          (env.NewAPIClient svc₂.Region).2 = some c →
          (handleRollout env svc₁ strategy).1 = (handleRollout env svc₂ strategy).1)
      ∧ (∀ (svc₁ svc₂ : ServiceRecord) (c : GoError),
          (env.NewAPIClient svc₁.Region).2 = none →
          (chooseMetricsProvider env (logFields svc₁) svc₁.Project svc₁.Region
            svc₁.Metadata.Name).1.2 = some c →
          (env.NewAPIClient svc₂.Region).2 = none →
          (chooseMetricsProvider env (logFields svc₂) svc₂.Project svc₂.Region
            svc₂.Metadata.Name).1.2 = some c →
          (handleRollout env svc₁ strategy).1 = (handleRollout env svc₂ strategy).1)
      ∧ (∀ (svc₁ svc₂ : ServiceRecord) (c : GoError),
          (env.NewAPIClient svc₁.Region).2 = none →
          (chooseMetricsProvider env (logFields svc₁) svc₁.Project svc₁.Region
            svc₁.Metadata.Name).1.2 = none →
          (env.Rollout
            (chooseMetricsProvider env (logFields svc₁) svc₁.Project svc₁.Region
              svc₁.Metadata.Name).1.1
            svc₁ strategy (env.NewAPIClient svc₁.Region).1).2 = some c →
          (env.NewAPIClient svc₂.Region).2 = none →
          (chooseMetricsProvider env (logFields svc₂) svc₂.Project svc₂.Region
            svc₂.Metadata.Name).1.2 = none →
          (env.Rollout
            (chooseMetricsProvider env (logFields svc₂) svc₂.Project svc₂.Region
              svc₂.Metadata.Name).1.1
            svc₂ strategy (env.NewAPIClient svc₂.Region).1).2 = some c →
          (handleRollout env svc₁ strategy).1 = (handleRollout env svc₂ strategy).1)
      ∧ ∀ (svcs : List ServiceRecord) (sched : List Tid) (errs : List error),
          env.getTargetedServices strategy.Target = (svcs, none) →
          (runRollouts env strategy sched).result = some errs →
          errs.Perm
            ((svcs.map (fun s => (handleRollout env s strategy).1)).filter Option.isSome) := by
  refine ⟨fun svc c h1 => ?_, fun svc c h1 h2 => ?_, fun svc c h1 h2 h3 => ?_,
    fun svc h1 h2 h3 => handleRollout_of_all_ok env svc strategy h1 h2 h3,
    fun svc₁ svc₂ c h1 h2 => ?_, fun svc₁ svc₂ c h1 h2 h3 h4 => ?_,
    fun svc₁ svc₂ c h1 h2 h3 h4 h5 h6 => ?_, fun svcs sched errs hsel hr => ?_⟩
  · rw [handleRollout_of_client_err env svc strategy c h1]
    exact ⟨rfl, rfl⟩
  · rw [handleRollout_of_provider_err env svc strategy c h1 h2]
    exact ⟨rfl, rfl⟩
  · rw [handleRollout_of_rollout_err env svc strategy c h1 h2 h3]
    exact ⟨rfl, rfl⟩
  · rw [handleRollout_of_client_err env svc₁ strategy c h1,
      handleRollout_of_client_err env svc₂ strategy c h2]
  · rw [handleRollout_of_provider_err env svc₁ strategy c h1 h2,
      handleRollout_of_provider_err env svc₂ strategy c h3 h4]
  · rw [handleRollout_of_rollout_err env svc₁ strategy c h1 h2 h3,
      handleRollout_of_rollout_err env svc₂ strategy c h4 h5 h6]
  · exact (inv_returned env strategy svcs _ (inv_runRollouts env strategy svcs hsel sched)
      errs hr).1

/-- Witness for the amended C8: client construction fails for `gamma`. -/
theorem handleRollout_error_shape_witness :
    (handleRollout envDemo svcGamma strategyDemo).1
        = some (GoError.wrap (GoError.base "no credentials")
            "failed to initialize Cloud Run API client")
      ∧ fmtV (handleRollout envDemo svcGamma strategyDemo).1
        = "failed to initialize Cloud Run API client" ++ ": "
            ++ (GoError.base "no credentials").Error :=
  (handleRollout_error_shape envDemo strategyDemo).1 svcGamma (GoError.base "no credentials")
    (by decide)

end Operator
